import Mathlib

/-!
Shallow embedding of the real-time collaboration core of the `contrivance`
repository: the per-document WebSocket connection registry
(`services/contrivance-service/src/websocket.rs`), the broadcast protocol
(`shared/common/src/models.rs`), and the token/session service
(`services/auth-service/src/service.rs`, `services/auth-service/src/repository.rs`,
`shared/common/src/jwt.rs`, `shared/common/src/auth.rs`).

Modelling conventions:
- `Uuid` is modelled as `Nat`; `uuid::Uuid::new_v4()` (random fresh id) is
  modelled by threading a fresh counter through the stateful operations.
- `chrono::DateTime<Utc>` is modelled as `Nat` (seconds); `Duration::hours h`
  is `h * 3600`.
- `actix::Addr<WebSocketConnection>` is compared only by equality in the
  source (`conn.eq(addr)`), so it is modelled as `Nat`.
- `std::collections::HashMap` is modelled as an association list with at most
  one entry per key; insertion order of keys is irrelevant to every claim.
- `serde_json::Value` typed payload fields are modelled as opaque `String`
  values already holding their JSON text.
-/

namespace Contrivance

/-- Model of `uuid::Uuid`. -/
abbrev Uuid := Nat

/-- Model of `actix::Addr<WebSocketConnection>`: the source only ever compares
addresses for equality (`conn.eq(addr)` in `remove_connection`). -/
abbrev Addr := Nat

/-! ## Data model (`shared/common/src/models.rs`) -/

/-- Model of `UserRole` (models.rs). -/
inductive UserRole where
  | Admin : UserRole
  | User : UserRole
deriving DecidableEq, Repr

/-- Model of `User` (models.rs). Timestamps are seconds. -/
structure User where
  id : Uuid
  email : String
  password_hash : String
  name : String
  role : UserRole
  created_at : Option Nat
  updated_at : Option Nat
  is_active : Option Bool
  last_login : Option Nat
deriving DecidableEq, Repr

/-- Model of `UserResponse` (models.rs). -/
structure UserResponse where
  id : Uuid
  email : String
  name : String
  role : UserRole
  created_at : Nat
  last_login : Option Nat
  is_active : Bool
deriving DecidableEq, Repr

/-- Model of `impl From<User> for UserResponse` (models.rs). The source uses
`created_at.unwrap_or_else(Utc::now)`, so the current time is a parameter. -/
def UserResponse.fromUser (now : Nat) (user : User) : UserResponse :=
  { id := user.id
    email := user.email
    name := user.name
    role := user.role
    created_at := user.created_at.getD now
    last_login := user.last_login
    is_active := user.is_active.getD true }

/-- Model of `UserSession` (models.rs): one row of the `user_sessions` table. -/
structure UserSession where
  id : Uuid
  user_id : Uuid
  token_hash : String
  expires_at : Nat
  created_at : Option Nat
  is_revoked : Option Bool
deriving DecidableEq, Repr

/-- Model of `ColumnType` (models.rs). -/
inductive ColumnType where
  | Text | Number | Date | Dropdown | Checkbox | Email | Phone | Url | Currency
deriving DecidableEq, Repr

/-- Model of `SpreadsheetColumn` (models.rs); `serde_json::Value` fields are
opaque JSON text. -/
structure SpreadsheetColumn where
  id : Uuid
  spreadsheet_id : Uuid
  name : String
  column_type : ColumnType
  position : Int
  is_required : Option Bool
  default_value : Option String
  validation_rules : Option String
  display_options : Option String
  created_at : Option Nat
  updated_at : Option Nat
deriving DecidableEq, Repr

/-- Model of `Spreadsheet` (models.rs). -/
structure Spreadsheet where
  id : Uuid
  name : String
  description : Option String
  owner_id : Uuid
  created_at : Option Nat
  updated_at : Option Nat
  is_public : Option Bool
  settings : Option String
deriving DecidableEq, Repr

/-- Model of `SpreadsheetRow` (models.rs); `row_data` is opaque JSON text. -/
structure SpreadsheetRow where
  id : Uuid
  spreadsheet_id : Uuid
  row_data : String
  position : Int
  created_at : Option Nat
  updated_at : Option Nat
  created_by : Option Uuid
  updated_by : Option Uuid
deriving DecidableEq, Repr

/-- Model of `WebSocketMessage` (models.rs), the broadcast protocol. The Rust
enum carries `#[serde(tag = "type")]`, so the wire form is a tagged JSON
object. -/
inductive WebSocketMessage where
  | UserJoined (user_id : Uuid) (user_name : String) (spreadsheet_id : Uuid)
  | UserLeft (user_id : Uuid) (spreadsheet_id : Uuid)
  | RowUpdated (spreadsheet_id : Uuid) (row : SpreadsheetRow) (updated_by : Uuid)
  | RowCreated (spreadsheet_id : Uuid) (row : SpreadsheetRow) (created_by : Uuid)
  | RowDeleted (spreadsheet_id : Uuid) (row_id : Uuid) (deleted_by : Uuid)
  | ColumnUpdated (spreadsheet_id : Uuid) (column : SpreadsheetColumn) (updated_by : Uuid)
  | ColumnCreated (spreadsheet_id : Uuid) (column : SpreadsheetColumn) (created_by : Uuid)
  | ColumnDeleted (spreadsheet_id : Uuid) (column_id : Uuid) (deleted_by : Uuid)
  | SpreadsheetUpdated (spreadsheet : Spreadsheet) (updated_by : Uuid)
  | SpreadsheetDeleted (spreadsheet_id : Uuid) (deleted_by : Uuid)
  | Error (message : String) (code : Option String)
  | Ping
  | Pong
deriving DecidableEq, Repr

/-! ## JSON encoding of the protocol

Model of `serde_json::to_string` on `WebSocketMessage`. For this enum the
serde serializer is total (every payload type serializes without error), so
the `Err` arm of the `match` in `broadcast_to_spreadsheet` is unreachable and
the encoder is modelled as a total function. The exact character layout of
the payload fields is irrelevant to every claim; what matters is that the
encoding is a single deterministic string per message, carrying the variant
tag. Braces are written with escapes to keep the text literal. -/

/-- Opening brace character of a JSON object. -/
def obr : String := "\x7b"

/-- Closing brace character of a JSON object. -/
def cbr : String := "\x7d"

/-- JSON string literal (payload strings are treated as opaque text). -/
def jstr (s : String) : String := "\"" ++ s ++ "\""

/-- JSON object from already-encoded field values. -/
def jobj (fields : List (String × String)) : String :=
  obr ++ String.intercalate "," (fields.map (fun f => jstr f.1 ++ ":" ++ f.2)) ++ cbr

/-- JSON encoding of an optional value (`null` for `None`). -/
def jopt (enc : α → String) : Option α → String
  | none => "null"
  | some a => enc a

/-- Model of `serde_json::to_string` on `WebSocketMessage` with the
`#[serde(tag = "type")]` representation: the variant name travels in the
`type` field next to the payload fields. -/
def serde_json_to_string : WebSocketMessage → String
  | .UserJoined user_id user_name spreadsheet_id =>
      jobj [("type", jstr "UserJoined"), ("user_id", toString user_id),
            ("user_name", jstr user_name), ("spreadsheet_id", toString spreadsheet_id)]
  | .UserLeft user_id spreadsheet_id =>
      jobj [("type", jstr "UserLeft"), ("user_id", toString user_id),
            ("spreadsheet_id", toString spreadsheet_id)]
  | .RowUpdated spreadsheet_id row updated_by =>
      jobj [("type", jstr "RowUpdated"), ("spreadsheet_id", toString spreadsheet_id),
            ("row", jobj [("id", toString row.id), ("row_data", jstr row.row_data)]),
            ("updated_by", toString updated_by)]
  | .RowCreated spreadsheet_id row created_by =>
      jobj [("type", jstr "RowCreated"), ("spreadsheet_id", toString spreadsheet_id),
            ("row", jobj [("id", toString row.id), ("row_data", jstr row.row_data)]),
            ("created_by", toString created_by)]
  | .RowDeleted spreadsheet_id row_id deleted_by =>
      jobj [("type", jstr "RowDeleted"), ("spreadsheet_id", toString spreadsheet_id),
            ("row_id", toString row_id), ("deleted_by", toString deleted_by)]
  | .ColumnUpdated spreadsheet_id column updated_by =>
      jobj [("type", jstr "ColumnUpdated"), ("spreadsheet_id", toString spreadsheet_id),
            ("column", jobj [("id", toString column.id), ("name", jstr column.name)]),
            ("updated_by", toString updated_by)]
  | .ColumnCreated spreadsheet_id column created_by =>
      jobj [("type", jstr "ColumnCreated"), ("spreadsheet_id", toString spreadsheet_id),
            ("column", jobj [("id", toString column.id), ("name", jstr column.name)]),
            ("created_by", toString created_by)]
  | .ColumnDeleted spreadsheet_id column_id deleted_by =>
      jobj [("type", jstr "ColumnDeleted"), ("spreadsheet_id", toString spreadsheet_id),
            ("column_id", toString column_id), ("deleted_by", toString deleted_by)]
  | .SpreadsheetUpdated spreadsheet updated_by =>
      jobj [("type", jstr "SpreadsheetUpdated"),
            ("spreadsheet", jobj [("id", toString spreadsheet.id), ("name", jstr spreadsheet.name)]),
            ("updated_by", toString updated_by)]
  | .SpreadsheetDeleted spreadsheet_id deleted_by =>
      jobj [("type", jstr "SpreadsheetDeleted"), ("spreadsheet_id", toString spreadsheet_id),
            ("deleted_by", toString deleted_by)]
  | .Error message code =>
      jobj [("type", jstr "Error"), ("message", jstr message), ("code", jopt jstr code)]
  | .Ping => jobj [("type", jstr "Ping")]
  | .Pong => jobj [("type", jstr "Pong")]

/-! ## Connection registry (`services/contrivance-service/src/websocket.rs`) -/

/-- Model of `ConnectionManager`: the map `spreadsheet_id -> Vec<Addr>` as an
association list with at most one entry per key (the `HashMap` contract). -/
structure ConnectionManager where
  connections : List (Uuid × List Addr)
deriving DecidableEq, Repr

/-- Model of `ConnectionManager::new`. -/
def ConnectionManager.new : ConnectionManager := ⟨[]⟩

/-- Lookup of the handle list registered for a document
(`self.connections.get(&spreadsheet_id)`). -/
def ConnectionManager.get (m : ConnectionManager) (spreadsheet_id : Uuid) :
    Option (List Addr) :=
  (m.connections.find? (fun e => e.1 == spreadsheet_id)).map (fun e => e.2)

/-- Model of `ConnectionManager::add_connection`:
`self.connections.entry(id).or_insert_with(Vec::new)` followed by `push`. -/
def ConnectionManager.add_connection (m : ConnectionManager) (spreadsheet_id : Uuid)
    (addr : Addr) : ConnectionManager :=
  if m.connections.any (fun e => e.1 == spreadsheet_id) then
    ⟨m.connections.map (fun e =>
      if e.1 == spreadsheet_id then (e.1, e.2 ++ [addr]) else e)⟩
  else
    ⟨m.connections ++ [(spreadsheet_id, [addr])]⟩

/-- Model of `ConnectionManager::remove_connection`:
`connections.retain(|conn| !conn.eq(addr))`, then the whole entry is removed
when the remaining vector is empty. -/
def ConnectionManager.remove_connection (m : ConnectionManager) (spreadsheet_id : Uuid)
    (addr : Addr) : ConnectionManager :=
  match m.get spreadsheet_id with
  | none => m
  | some conns =>
      let remaining := conns.filter (fun conn => !(conn == addr))
      if remaining.isEmpty then
        ⟨m.connections.filter (fun e => !(e.1 == spreadsheet_id))⟩
      else
        ⟨m.connections.map (fun e =>
          if e.1 == spreadsheet_id then (e.1, remaining) else e)⟩

/-- Model of `ConnectionManager::broadcast_to_spreadsheet`. The observable
behaviour is the sequence of `do_send(SendMessage(json.clone()))` calls, so
the model returns the delivery list: each registered handle paired with the
payload it is sent, in iteration order. A document with no entry produces no
deliveries. -/
def ConnectionManager.broadcast_to_spreadsheet (m : ConnectionManager)
    (spreadsheet_id : Uuid) (message : WebSocketMessage) : List (Addr × String) :=
  match m.get spreadsheet_id with
  | none => []
  | some conns =>
      let message_json := serde_json_to_string message
      conns.map (fun connection => (connection, message_json))

/-- Model of `ConnectionManager::get_connection_count`:
`connections.get(&id).map_or(0, |conns| conns.len())`. -/
def ConnectionManager.get_connection_count (m : ConnectionManager)
    (spreadsheet_id : Uuid) : Nat :=
  (m.get spreadsheet_id).elim 0 (fun conns => conns.length)

/-! ## Register and deregister call sequences

The lifecycle hooks `Actor::started` and `Actor::stopped` of
`WebSocketConnection` issue `add_connection` and `remove_connection` calls on
the shared manager. A finite call sequence on one document is modelled as a
list of operations folded over the manager state. -/

/-- One registry call on a fixed document. -/
inductive RegOp where
  | register (addr : Addr)
  | deregister (addr : Addr)
deriving DecidableEq, Repr

/-- Apply one call to the manager. -/
def applyOp (spreadsheet_id : Uuid) (m : ConnectionManager) : RegOp → ConnectionManager
  | .register addr => m.add_connection spreadsheet_id addr
  | .deregister addr => m.remove_connection spreadsheet_id addr

/-- Apply a call sequence to the manager. -/
def applyOps (m : ConnectionManager) (spreadsheet_id : Uuid) (ops : List RegOp) :
    ConnectionManager :=
  ops.foldl (applyOp spreadsheet_id) m

/-- Specification-side account of a call sequence: the handles still
registered after the sequence. `register` appends one occurrence and
`deregister` removes every occurrence of the handle, which is reference
identity removal as the spec describes it. -/
def netHandlesFrom (acc : List Addr) (ops : List RegOp) : List Addr :=
  ops.foldl (fun hs op =>
    match op with
    | .register addr => hs ++ [addr]
    | .deregister addr => hs.filter (fun h => !(h == addr))) acc

/-- Net still-registered handles of a call sequence started from scratch. -/
def netHandles (ops : List RegOp) : List Addr := netHandlesFrom [] ops

/-- The registry map holds a key for the document. -/
def ConnectionManager.containsDoc (m : ConnectionManager) (spreadsheet_id : Uuid) : Bool :=
  m.connections.any (fun e => e.1 == spreadsheet_id)

/-! ## Error taxonomy (`shared/common/src/errors.rs`) -/

/-- Model of `ContrivanceError` (errors.rs); only the constructors the
embedded operations can produce are exercised, but the taxonomy is kept. -/
inductive ContrivanceError where
  | Database (message : String)
  | Authentication (message : String)
  | Authorization (message : String)
  | Validation (message : String)
  | NotFound (message : String)
  | Conflict (message : String)
  | Internal (message : String)
  | Configuration (message : String)
deriving DecidableEq, Repr

/-- Model of `ContrivanceResult<T>`. -/
abbrev ContrivanceResult (α : Type) := Except ContrivanceError α

/-! ## Connection handle inbound stream
(`impl StreamHandler<Result<ws::Message, ws::ProtocolError>> for WebSocketConnection`,
websocket.rs lines 132-182) -/

/-- Model of one item of the inbound stream: the `ws::Message` frame kinds the
handler matches on, plus the `Err(ws::ProtocolError)` case. -/
inductive WsFrame where
  | ping (data : String)
  | pong (data : String)
  | text (text : String)
  | binary (data : String)
  | close
  | protocolErr
deriving DecidableEq, Repr

/-- Observable actions the handler performs on its own socket context. -/
inductive OutAction where
  | pongFrame (data : String)
  | textFrame (payload : String)
deriving DecidableEq, Repr

/-- Result of handling one inbound frame: the frames written to this
connection's own socket, in order, and whether `ctx.stop()` was called. -/
structure HandlerResult where
  out : List OutAction
  stopped : Bool
deriving DecidableEq, Repr

/-- Model of the `StreamHandler` implementation. `serde_json::from_str` is an
external collaborator and is passed in as the decode function `parse`; a
malformed payload is exactly an input on which `parse` returns `none`. The
`Ok(WebSocketMessage::Ping)` arm answers with a serialized `Pong`; any other
well-formed message is only logged; a parse failure answers with a serialized
`Error` message; `Close` frames and protocol errors call `ctx.stop()`. -/
def streamHandle (parse : String → Option WebSocketMessage) :
    WsFrame → HandlerResult
  | .ping data => ⟨[.pongFrame data], false⟩
  | .pong _ => ⟨[], false⟩
  | .text text =>
      match parse text with
      | some WebSocketMessage.Ping =>
          ⟨[.textFrame (serde_json_to_string WebSocketMessage.Pong)], false⟩
      | some _ => ⟨[], false⟩
      | none =>
          ⟨[.textFrame (serde_json_to_string
              (WebSocketMessage.Error "Invalid message format" (some "INVALID_FORMAT")))],
           false⟩
  | .binary _ => ⟨[], false⟩
  | .close => ⟨[], true⟩
  | .protocolErr => ⟨[], true⟩

/-- The only registry mutation tied to inbound handling: `Actor::stopped`
calls `remove_connection`, and it runs exactly when the actor stops. When the
handler result did not stop the actor, the registry is untouched. -/
def stoppedEffect (r : HandlerResult) (m : ConnectionManager)
    (spreadsheet_id : Uuid) (addr : Addr) : ConnectionManager :=
  if r.stopped then m.remove_connection spreadsheet_id addr else m

/-! ## WebSocket upgrade endpoint
(`websocket_handler`, services/contrivance-service/src/main.rs lines 166-201).

The route `/ws/spreadsheet/{id}` is registered outside the `/api` scope, so
the bearer-token middleware never runs for it and nothing ever inserts a
`User` into the request extensions; `get_user_from_request` then reads those
extensions. The source handler never returns an unauthorized response: on
`Err` it substitutes a freshly made anonymous `User` and proceeds to
`ws::start`, which creates the connection actor. -/

/-- Model of `WebSocketConnection` (websocket.rs): the actor state. The
`Arc<RwLock<ConnectionManager>>` back-reference is not observable data and is
not part of the model state. -/
structure WebSocketConnection where
  user_id : Uuid
  spreadsheet_id : Uuid
deriving DecidableEq, Repr

/-- Model of `WebSocketConnection::new`. -/
def WebSocketConnection.new (user_id : Uuid) (spreadsheet_id : Uuid) :
    WebSocketConnection :=
  ⟨user_id, spreadsheet_id⟩

/-- Model of the request as the handler observes it: the `User` value that
auth middleware would have inserted into the request extensions, when one
was inserted. For `/ws/spreadsheet/{id}` no middleware is attached, so the
field is `none` whatever bearer token (missing, malformed or expired) the
request carried. -/
structure HttpRequest where
  extensions_user : Option User
deriving DecidableEq, Repr

/-- Model of `get_user_from_request` (middleware/auth.rs lines 75-81). -/
def get_user_from_request (req : HttpRequest) : ContrivanceResult User :=
  match req.extensions_user with
  | some user => .ok user
  | none => .error (.Authentication "User not found in request")

/-- The anonymous fallback `User` built inline in `websocket_handler`;
`Uuid::new_v4()` is modelled by the fresh id parameter. -/
def anonymousUser (freshId : Uuid) (now : Nat) : User :=
  { id := freshId
    email := "anonymous@example.com"
    password_hash := ""
    name := "Anonymous"
    role := .User
    created_at := some now
    updated_at := some now
    is_active := some true
    last_login := none }

/-- Model of `websocket_handler` (main.rs lines 166-201). The body always
reaches `ws::start`, so the model returns the connection actor that gets
created; there is no rejection branch in the source. -/
def websocket_handler (req : HttpRequest) (spreadsheet_id : Uuid)
    (freshId : Uuid) (now : Nat) : WebSocketConnection :=
  let user :=
    match get_user_from_request req with
    | .ok user => user
    | .error _ => anonymousUser freshId now
  WebSocketConnection.new user.id spreadsheet_id

/-! ## Token service (`shared/common/src/jwt.rs`, used by auth-service via
the `common::JwtService` re-export) -/

/-- Model of `Claims` (jwt.rs). `sub` and `jti` are `Uuid` values rendered as
strings on the wire; `Uuid::parse_str` of such a rendering always succeeds,
so the model keeps them as `Uuid` and the parse steps are identities. -/
structure Claims where
  sub : Uuid
  exp : Nat
  iat : Nat
  jti : Uuid
  role : String
deriving DecidableEq, Repr

/-- Model of an encoded JWT: either a well-formed token signed with some
secret, or an arbitrary string that is not a token at all. -/
inductive Token where
  | signed (claims : Claims) (key : String)
  | malformed (raw : String)
deriving DecidableEq, Repr

/-- Model of `JwtService` (jwt.rs): HS256 with a shared secret; the unused
expiration constructor arguments are dropped. -/
structure JwtService where
  secret : String
deriving DecidableEq, Repr

/-- Model of `JwtService::generate_token`. -/
def JwtService.generate_token (svc : JwtService) (user_id : Uuid)
    (session_id : Uuid) (role : String) (expires_in_hours : Nat) (now : Nat) : Token :=
  .signed
    { sub := user_id
      exp := now + expires_in_hours * 3600
      iat := now
      jti := session_id
      role := role }
    svc.secret

/-- Default expiry leeway of the `jsonwebtoken` crate validation (seconds). -/
def jwtLeeway : Nat := 60

/-- Model of `JwtService::validate_token` (jwt.rs lines 60-67): signature and
expiry check only, via `jsonwebtoken::decode` with `validate_exp`. -/
def JwtService.validate_token (svc : JwtService) (now : Nat) (token : Token) :
    ContrivanceResult Claims :=
  match token with
  | .malformed _ => .error (.Authentication "Invalid token: InvalidToken")
  | .signed claims key =>
      if key != svc.secret then
        .error (.Authentication "Invalid token: InvalidSignature")
      else if claims.exp + jwtLeeway < now then
        .error (.Authentication "Invalid token: ExpiredSignature")
      else
        .ok claims

/-- Model of `JwtService::create_token_pair`: a 1 hour access token and a
7 day (168 hour) refresh token over the same claims. -/
def JwtService.create_token_pair (svc : JwtService) (user_id : Uuid)
    (session_id : Uuid) (role : String) (now : Nat) : Token × Token :=
  (svc.generate_token user_id session_id role 1 now,
   svc.generate_token user_id session_id role (24 * 7) now)

/-- Model of `JwtService::extract_session_id` (jwt.rs lines 77-81). -/
def JwtService.extract_session_id (svc : JwtService) (now : Nat)
    (token : Token) : ContrivanceResult Uuid :=
  match svc.validate_token now token with
  | .error e => .error e
  | .ok claims => .ok claims.jti

/-- The wire text of a token, as handed to `generate_session_hash`. -/
def Claims.text (c : Claims) : String :=
  toString c.sub ++ "." ++ toString c.exp ++ "." ++ toString c.iat ++ "."
    ++ toString c.jti ++ "." ++ c.role

/-- The serialized token string. -/
def Token.text : Token → String
  | .signed claims key => "jwt." ++ claims.text ++ "." ++ key
  | .malformed raw => raw

/-- Model of `SessionService::generate_session_hash` (auth.rs lines 269-274):
the SHA-256 hex digest of the token text, modelled as an ideal deterministic
fingerprint of that text. -/
def generate_session_hash (token : Token) : String :=
  "sha256(" ++ token.text ++ ")"

/-- Model of `SessionService::is_session_valid` (auth.rs lines 277-279):
`!session.is_revoked.unwrap_or(false) && Utc::now() < session.expires_at`. -/
def is_session_valid (now : Nat) (session : UserSession) : Bool :=
  !(session.is_revoked.getD false) && decide (now < session.expires_at)

/-! ## Session repository (`services/auth-service/src/repository.rs`)

The Postgres tables are modelled as in-memory lists; `Uuid::new_v4()` is a
fresh counter threaded through the state. Database transport errors are
external failures outside the model. -/

/-- The persistent store of the auth service: the `users` and
`user_sessions` tables. -/
structure AuthDb where
  users : List User
  sessions : List UserSession
deriving DecidableEq, Repr

/-- Store plus the fresh-id source modelling `Uuid::new_v4()`. -/
structure AuthState where
  db : AuthDb
  freshCounter : Nat
deriving DecidableEq, Repr

/-- One fresh identifier (`Uuid::new_v4()`). -/
def freshUuid (st : AuthState) : Uuid × AuthState :=
  (st.freshCounter, { st with freshCounter := st.freshCounter + 1 })

/-- Model of `AuthRepository::find_user_by_id`:
`WHERE id = $1 AND is_active = true`. -/
def AuthDb.find_user_by_id (db : AuthDb) (user_id : Uuid) : Option User :=
  db.users.find? (fun u => u.id == user_id && u.is_active == some true)

/-- Model of `AuthRepository::create_session` (repository.rs lines 94-115):
the row id is a fresh `Uuid::new_v4()` generated inside the repository,
independent of any id the caller may hold. -/
def create_session (st : AuthState) (user_id : Uuid) (token_hash : String)
    (expires_at : Nat) (now : Nat) : UserSession × AuthState :=
  let (session_id, st1) := freshUuid st
  let session : UserSession :=
    { id := session_id
      user_id := user_id
      token_hash := token_hash
      expires_at := expires_at
      created_at := some now
      is_revoked := some false }
  (session, { st1 with db := { st1.db with sessions := st1.db.sessions ++ [session] } })

/-- Model of `AuthRepository::find_session_by_token_hash`. -/
def AuthDb.find_session_by_token_hash (db : AuthDb) (token_hash : String) :
    Option UserSession :=
  db.sessions.find? (fun s => s.token_hash == token_hash)

/-- Model of `AuthRepository::revoke_session` (repository.rs lines 131-140):
`UPDATE user_sessions SET is_revoked = true WHERE id = $1`. -/
def revoke_session (st : AuthState) (session_id : Uuid) : AuthState :=
  { st with db := { st.db with sessions := st.db.sessions.map (fun s =>
      if s.id == session_id then { s with is_revoked := some true } else s) } }

/-! ## Auth service (`services/auth-service/src/service.rs`) -/

/-- Model of `LoginResponse` (models.rs); tokens stay structured. -/
structure LoginResponse where
  access_token : Token
  refresh_token : Token
  user : UserResponse
  expires_at : Nat
deriving DecidableEq, Repr

/-- Model of `AuthService::create_login_response` (service.rs lines 166-185).
The service picks `session_id = Uuid::new_v4()`, signs both tokens with it as
the `jti` claim, then calls `create_session` with the hash of the refresh
token and `expires_at = now + 1 hour`; `create_session` generates its own row
id. JWT signing and the row insert cannot fail in the model, so the
`ContrivanceResult` wrapper is dropped here. -/
def create_login_response (svc : JwtService) (st : AuthState) (now : Nat)
    (user : User) : LoginResponse × AuthState :=
  let (session_id, st1) := freshUuid st
  let pair := svc.create_token_pair user.id session_id "user" now
  let refresh_token_hash := generate_session_hash pair.2
  let expires_at := now + 3600
  let (_session, st2) := create_session st1 user.id refresh_token_hash expires_at now
  ({ access_token := pair.1
     refresh_token := pair.2
     user := UserResponse.fromUser now user
     expires_at := expires_at },
   st2)

/-- Model of `AuthService::refresh_token` (service.rs lines 71-100). The
`Uuid::parse_str(&claims.jti)` step always succeeds in the model (see
`Claims`) and its result is not used further by the source. -/
def AuthService.refresh_token (svc : JwtService) (st : AuthState) (now : Nat)
    (refresh_tok : Token) : ContrivanceResult (LoginResponse × AuthState) :=
  match svc.validate_token now refresh_tok with
  | .error e => .error e
  | .ok _claims =>
      let token_hash := generate_session_hash refresh_tok
      match st.db.find_session_by_token_hash token_hash with
      | none => .error (.Authentication "Session not found")
      | some session =>
          if !(is_session_valid now session) then
            .error (.Authentication "Session expired or revoked")
          else
            match st.db.find_user_by_id session.user_id with
            | none => .error (.Authentication "User not found")
            | some user =>
                let st1 := revoke_session st session.id
                .ok (create_login_response svc st1 now user)

/-- Model of `AuthService::validate_token` (service.rs lines 103-116):
JWT validation followed by a user-table lookup on the subject claim. -/
def AuthService.validate_token (svc : JwtService) (db : AuthDb) (now : Nat)
    (token : Token) : ContrivanceResult UserResponse :=
  match svc.validate_token now token with
  | .error e => .error e
  | .ok claims =>
      match db.find_user_by_id claims.sub with
      | none => .error (.Authentication "User not found")
      | some user => .ok (UserResponse.fromUser now user)

/-- Model of `AuthService::logout` (service.rs lines 119-127): revokes the
session whose id is the `jti` claim of the presented token. -/
def AuthService.logout (svc : JwtService) (st : AuthState) (now : Nat)
    (token : Token) : ContrivanceResult AuthState :=
  match svc.extract_session_id now token with
  | .error e => .error e
  | .ok session_id => .ok (revoke_session st session_id)

/-! ## Concrete scenario used by witnesses and counterexamples -/

/-- A concrete token service. -/
def demoJwt : JwtService := ⟨"demo-secret"⟩

/-- A concrete active user registered in the store. -/
def demoUser : User :=
  { id := 100
    email := "u@example.com"
    password_hash := "hash"
    name := "Demo"
    role := .User
    created_at := some 0
    updated_at := some 0
    is_active := some true
    last_login := none }

/-- Initial store: the demo user, no sessions, fresh counter at 0. -/
def demoState : AuthState :=
  { db := { users := [demoUser], sessions := [] }, freshCounter := 0 }

/-- The login issue performed at time 0 for the demo user. -/
def demoIssue : LoginResponse × AuthState :=
  create_login_response demoJwt demoState 0 demoUser

/-! ## Registry lemmas -/

/-- Handles currently registered for a document (empty when the key is
absent). -/
def ConnectionManager.handlesOf (m : ConnectionManager) (spreadsheet_id : Uuid) :
    List Addr :=
  (m.get spreadsheet_id).getD []

/-- Shape of a manager reachable by operating on a single document starting
from scratch: either empty, or exactly one entry for that document. -/
def singleDocShape (m : ConnectionManager) (d : Uuid) (acc : List Addr) : Prop :=
  m.connections = if acc.isEmpty then [] else [(d, acc)]

lemma singleDocShape_new (d : Uuid) : singleDocShape ConnectionManager.new d [] := rfl

lemma add_connection_shape (m : ConnectionManager) (d : Uuid) (acc : List Addr)
    (a : Addr) (hs : singleDocShape m d acc) :
    singleDocShape (m.add_connection d a) d (acc ++ [a]) := by
  unfold singleDocShape at hs ⊢
  unfold ConnectionManager.add_connection
  rcases acc with _ | ⟨x, xs⟩
  · simp only [List.isEmpty_nil, if_true] at hs
    simp [hs]
  · simp only [List.isEmpty_cons, if_false, Bool.false_eq_true] at hs
    simp [hs]

lemma remove_connection_shape (m : ConnectionManager) (d : Uuid) (acc : List Addr)
    (a : Addr) (hs : singleDocShape m d acc) :
    singleDocShape (m.remove_connection d a) d (acc.filter (fun h => !(h == a))) := by
  unfold singleDocShape at hs ⊢
  unfold ConnectionManager.remove_connection ConnectionManager.get
  rcases acc with _ | ⟨x, xs⟩
  · simp only [List.isEmpty_nil, if_true] at hs
    simp [hs]
  · simp only [List.isEmpty_cons, if_false, Bool.false_eq_true] at hs
    rw [hs]
    simp only [List.find?_cons, beq_self_eq_true, List.map_cons]
    by_cases hrem : ((x :: xs).filter (fun h => !(h == a))).isEmpty
    · simp [hrem, List.isEmpty_iff.mp hrem]
    · simp only [hrem, if_false]
      simp only [Bool.not_eq_true] at hrem
      simp [hrem, List.isEmpty_iff]

lemma applyOps_shape (d : Uuid) (ops : List RegOp) :
    ∀ (m : ConnectionManager) (acc : List Addr), singleDocShape m d acc →
      singleDocShape (applyOps m d ops) d (netHandlesFrom acc ops) := by
  induction ops with
  | nil =>
      intro m acc h
      simpa [applyOps, netHandlesFrom] using h
  | cons op rest ih =>
      intro m acc h
      rcases op with a | a
      · have hstep := add_connection_shape m d acc a h
        simpa [applyOps, netHandlesFrom, applyOp] using ih _ _ hstep
      · have hstep := remove_connection_shape m d acc a h
        simpa [applyOps, netHandlesFrom, applyOp] using ih _ _ hstep

lemma count_of_shape (m : ConnectionManager) (d : Uuid) (acc : List Addr)
    (hs : singleDocShape m d acc) :
    m.get_connection_count d = acc.length ∧ (m.containsDoc d = true ↔ acc ≠ []) := by
  unfold singleDocShape at hs
  unfold ConnectionManager.get_connection_count ConnectionManager.containsDoc
    ConnectionManager.get
  rcases acc with _ | ⟨x, xs⟩
  · simp only [List.isEmpty_nil, if_true] at hs
    simp [hs]
  · simp only [List.isEmpty_cons, if_false, Bool.false_eq_true] at hs
    simp [hs]

/-- C5: for every finite sequence of register/deregister calls on one
document starting from a fresh manager, `get_connection_count` equals the
number of still-registered handle occurrences (each `register` adds one,
each `deregister` removes every occurrence of its handle, which is the
reference-identity removal the code performs), and the document key is
present in the map iff that count is non-zero. -/
theorem connection_count_matches_net_handles (d : Uuid) (ops : List RegOp) :
    (applyOps ConnectionManager.new d ops).get_connection_count d
        = (netHandles ops).length
      ∧ ((applyOps ConnectionManager.new d ops).containsDoc d = true
        ↔ (applyOps ConnectionManager.new d ops).get_connection_count d ≠ 0) := by
  have hshape := applyOps_shape d ops ConnectionManager.new [] (singleDocShape_new d)
  obtain ⟨h1, h2⟩ := count_of_shape _ _ _ hshape
  refine ⟨h1, ?_⟩
  rw [h1, h2]
  constructor
  · intro hne hlen
    exact hne (List.length_eq_zero.mp hlen)
  · intro hlen hne
    exact hlen (by rw [hne]; rfl)

/-- C6: `broadcast_to_spreadsheet` delivers one single serialized form of the
message — the same string — to exactly the handles registered for the target
document, in their registration (vector) order; handles registered only under
other documents receive nothing, since the delivery list is precisely the
target document's handle list. -/
theorem broadcast_delivers_serialized_once_in_order (m : ConnectionManager)
    (d : Uuid) (msg : WebSocketMessage) :
    m.broadcast_to_spreadsheet d msg
      = (m.handlesOf d).map (fun h => (h, serde_json_to_string msg)) := by
  unfold ConnectionManager.broadcast_to_spreadsheet ConnectionManager.handlesOf
  cases m.get d <;> simp

/-- C7: broadcast on a document with zero registered handles performs no
delivery at all and signals no error. -/
theorem broadcast_empty_doc_is_noop (m : ConnectionManager) (d : Uuid)
    (msg : WebSocketMessage) (h : m.get_connection_count d = 0) :
    m.broadcast_to_spreadsheet d msg = [] := by
  unfold ConnectionManager.get_connection_count at h
  unfold ConnectionManager.broadcast_to_spreadsheet
  cases hg : m.get d with
  | none => simp
  | some conns =>
      rw [hg] at h
      simp only [Option.elim] at h
      rw [List.length_eq_zero] at h
      simp [h]

/-- Closed witness for C7 on a concrete empty manager. -/
theorem broadcast_empty_doc_is_noop_witness :
    ConnectionManager.new.get_connection_count 5 = 0
      ∧ ConnectionManager.new.broadcast_to_spreadsheet 5 WebSocketMessage.Ping = [] :=
  ⟨by decide, broadcast_empty_doc_is_noop ConnectionManager.new 5 WebSocketMessage.Ping (by decide)⟩

lemma find?_map_keep_key (d : Uuid) (f : (Uuid × List Addr) → (Uuid × List Addr))
    (hf : ∀ e, (f e).1 = e.1) (l : List (Uuid × List Addr)) :
    (l.map f).find? (fun e => e.1 == d) = (l.find? (fun e => e.1 == d)).map f := by
  induction l with
  | nil => rfl
  | cons e t ih =>
      by_cases he : e.1 == d
      · simp [List.find?_cons, hf, he]
      · simp only [List.map_cons, List.find?_cons, hf, he, Bool.false_eq_true, if_false]
        simpa [he] using ih

lemma get_mk (l : List (Uuid × List Addr)) (d : Uuid) :
    (⟨l⟩ : ConnectionManager).get d
      = (l.find? (fun e => e.1 == d)).map (fun e => e.2) := rfl

lemma remove_connection_of_get_some (m : ConnectionManager) (d : Uuid) (a : Addr)
    (conns : List Addr) (h : m.get d = some conns) :
    m.remove_connection d a =
      if (conns.filter (fun conn => !(conn == a))).isEmpty then
        ⟨m.connections.filter (fun e => !(e.1 == d))⟩
      else
        ⟨m.connections.map (fun e =>
          if e.1 == d then (e.1, conns.filter (fun conn => !(conn == a))) else e)⟩ := by
  unfold ConnectionManager.remove_connection
  rw [h]

/-- C10: when the same handle reference occurs `n >= 1` times in the entry of
one document, a single `remove_connection` call removes every occurrence at
once (the `retain` keeps only handles different from the argument). -/
theorem deregister_removes_all_occurrences (m : ConnectionManager) (d : Uuid)
    (a : Addr) (n : Nat) (hn : (m.handlesOf d).count a = n) (hpos : 1 ≤ n) :
    ((m.remove_connection d a).handlesOf d).count a = 0 := by
  unfold ConnectionManager.handlesOf at hn ⊢
  cases hg : m.get d with
  | none =>
      rw [hg] at hn
      simp at hn
      omega
  | some conns =>
      rw [remove_connection_of_get_some m d a conns hg]
      by_cases hrem : (conns.filter (fun conn => !(conn == a))).isEmpty
      · rw [if_pos hrem, get_mk]
        have hnone : (m.connections.filter (fun e => !(e.1 == d))).find?
            (fun e => e.1 == d) = none := by
          rw [List.find?_eq_none]
          intro x hx
          have hx2 := List.of_mem_filter hx
          simpa using hx2
        rw [hnone]
        simp
      · rw [if_neg hrem, get_mk]
        obtain ⟨e0, he0, hconns⟩ : ∃ e0, m.connections.find? (fun e => e.1 == d) = some e0
            ∧ e0.2 = conns := by
          unfold ConnectionManager.get at hg
          cases hf : m.connections.find? (fun e => e.1 == d) with
          | none => rw [hf] at hg; simp at hg
          | some e0 => rw [hf] at hg; simp at hg; exact ⟨e0, rfl, hg⟩
        have hkey : (e0.1 == d) = true := by
          have hk := List.find?_some he0
          exact hk
        rw [find?_map_keep_key d _ (by intro e; by_cases h : (e.1 == d) <;> simp [h]) _]
        rw [he0]
        simp only [Option.map_some', Option.getD_some, hkey, if_true]
        rw [List.count_eq_zero]
        intro hmem
        have hx2 := List.of_mem_filter hmem
        simp at hx2

/-- Closed witness for C10: the handle 7 registered twice under document 3 is
fully removed by one deregister call. -/
theorem deregister_removes_all_occurrences_witness :
    ((⟨[(3, [7, 7])]⟩ : ConnectionManager).handlesOf 3).count 7 = 2
      ∧ (((⟨[(3, [7, 7])]⟩ : ConnectionManager).remove_connection 3 7).handlesOf 3).count 7 = 0 :=
  ⟨by decide, deregister_removes_all_occurrences ⟨[(3, [7, 7])]⟩ 3 7 2 (by decide) (by decide)⟩

/-! ## Inbound-frame and upgrade theorems -/

/-- C8: an inbound text frame that does not parse as a protocol message makes
the handler send one serialized `Error` protocol message on its own socket
only, does not stop the actor (the connection stays open), and leaves the
registry — hence every other handle — untouched, since deregistration runs
only when the actor stops. -/
theorem malformed_inbound_sends_error_to_sender_only
    (parse : String → Option WebSocketMessage) (t : String) (h : parse t = none)
    (m : ConnectionManager) (d : Uuid) (a : Addr) :
    streamHandle parse (.text t)
        = { out := [.textFrame (serde_json_to_string
              (.Error "Invalid message format" (some "INVALID_FORMAT")))],
            stopped := false }
      ∧ stoppedEffect (streamHandle parse (.text t)) m d a = m := by
  have hres : streamHandle parse (.text t)
      = { out := [.textFrame (serde_json_to_string
            (.Error "Invalid message format" (some "INVALID_FORMAT")))],
          stopped := false } := by
    simp only [streamHandle]
    rw [h]
  exact ⟨hres, by rw [hres]; rfl⟩

/-- Closed witness for C8 with a concrete non-parsing payload. -/
theorem malformed_inbound_sends_error_to_sender_only_witness :
    streamHandle (fun _ => none) (.text "not-json")
        = { out := [.textFrame (serde_json_to_string
              (.Error "Invalid message format" (some "INVALID_FORMAT")))],
            stopped := false }
      ∧ stoppedEffect (streamHandle (fun _ => none) (.text "not-json"))
          ConnectionManager.new 3 7 = ConnectionManager.new :=
  malformed_inbound_sends_error_to_sender_only (fun _ => none) "not-json" rfl
    ConnectionManager.new 3 7

/-- C1, evaluated on the failing input: an upgrade request whose bearer token
failed (so that nothing put a `User` in the request extensions — which on the
`/ws/spreadsheet/{id}` route is every request, the auth middleware not being
attached to it) is NOT rejected: `get_user_from_request` errors, yet the
handler swallows the error, substitutes the anonymous user and creates the
connection actor, which will register itself with the registry. -/
theorem unauthenticated_upgrade_still_creates_handle (d freshId : Uuid) (now : Nat) :
    websocket_handler { extensions_user := none } d freshId now
        = WebSocketConnection.new freshId d
      ∧ get_user_from_request { extensions_user := none }
        = .error (.Authentication "User not found in request") :=
  ⟨rfl, rfl⟩

/-! ## Token and session theorems -/

/-- C2, evaluated on the failing input: issue at time 0, then look at time
7200 (past the 1 hour access expiry, far within the 7 day refresh expiry).
The access token is indeed rejected as expired and the refresh JWT itself
still validates — but `refresh_token` nevertheless fails, because
`create_login_response` stored the session row with
`expires_at = now + 1 hour` and `is_session_valid` then reports the session
expired. -/
theorem refresh_rejected_inside_refresh_window :
    demoJwt.validate_token 7200 demoIssue.1.access_token
        = .error (.Authentication "Invalid token: ExpiredSignature")
      ∧ demoJwt.validate_token 7200 demoIssue.1.refresh_token
        = .ok { sub := 100, exp := 604800, iat := 0, jti := 0, role := "user" }
      ∧ demoIssue.2.db.sessions.map (fun s => s.expires_at) = [3600]
      ∧ AuthService.refresh_token demoJwt demoIssue.2 7200 demoIssue.1.refresh_token
        = .error (.Authentication "Session expired or revoked") :=
  ⟨rfl, rfl, rfl, rfl⟩

/-- C3, evaluated on the failing input: after the issue at time 0, both
tokens carry `jti = 0` (the `session_id` drawn in `create_login_response`),
but the session row was created with its own fresh id 1 drawn inside
`create_session` — the embedded identifier matches no session record, and
`logout` (revoke by the jti taken from the token) leaves the store
completely unchanged. -/
theorem token_jti_mismatches_session_record :
    demoIssue.1.access_token
        = .signed { sub := 100, exp := 3600, iat := 0, jti := 0, role := "user" } "demo-secret"
      ∧ demoIssue.1.refresh_token
        = .signed { sub := 100, exp := 604800, iat := 0, jti := 0, role := "user" } "demo-secret"
      ∧ demoIssue.2.db.sessions
        = [{ id := 1, user_id := 100,
             token_hash := generate_session_hash demoIssue.1.refresh_token,
             expires_at := 3600, created_at := some 0, is_revoked := some false }]
      ∧ (1 : Uuid) ≠ 0
      ∧ AuthService.logout demoJwt demoIssue.2 0 demoIssue.1.access_token = .ok demoIssue.2 :=
  ⟨rfl, rfl, rfl, by decide, rfl⟩

/-- An auth store with no user rows. -/
def demoDbNoUsers : AuthDb := { users := [], sessions := [] }

/-- C9 counterexample: with the same valid, unexpired access token,
`AuthService::validate_token` answers differently on two stores that differ
only in the user table — on the store missing the user it fails with a
user-not-found error. A user lookup therefore does occur during access-token
validation, refuting the claim as stated. -/
theorem validate_token_consults_user_store :
    AuthService.validate_token demoJwt demoState.db 10 demoIssue.1.access_token
        = .ok (UserResponse.fromUser 10 demoUser)
      ∧ AuthService.validate_token demoJwt demoDbNoUsers 10 demoIssue.1.access_token
        = .error (.Authentication "User not found") :=
  ⟨rfl, rfl⟩

/-- C9 amended: `validate` verifies the signature and expiry of the token and
never consults the session table (its result is invariant under any change of
the sessions), failing with an expiry error on an expired token and a
malformed error on a non-token — but it then looks up the user of the subject
claim in the user table, so a user lookup does occur. -/
theorem validate_token_no_session_lookup
    (svc : JwtService) (users : List User) (s1 s2 : List UserSession)
    (now : Nat) (tok : Token) (c : Claims) (k : Nat) (raw : String) :
    AuthService.validate_token svc { users := users, sessions := s1 } now tok
        = AuthService.validate_token svc { users := users, sessions := s2 } now tok
      ∧ AuthService.validate_token svc { users := users, sessions := s1 }
          (c.exp + jwtLeeway + k + 1) (.signed c svc.secret)
        = .error (.Authentication "Invalid token: ExpiredSignature")
      ∧ AuthService.validate_token svc { users := users, sessions := s1 } now (.malformed raw)
        = .error (.Authentication "Invalid token: InvalidToken") := by
  refine ⟨?_, ?_, rfl⟩
  · unfold AuthService.validate_token AuthDb.find_user_by_id
    rfl
  · have hexp : c.exp + jwtLeeway < c.exp + jwtLeeway + k + 1 := by omega
    simp [AuthService.validate_token, JwtService.validate_token, hexp]

/-! ## Refresh-token rotation lemmas -/

lemma validate_token_signed_ok (svc : JwtService) (tnow : Nat) (c : Claims)
    (h : tnow ≤ c.exp + jwtLeeway) :
    svc.validate_token tnow (.signed c svc.secret) = .ok c := by
  unfold JwtService.validate_token
  simp only [bne_self_eq_false, Bool.false_eq_true, if_false]
  rw [if_neg (by omega)]

lemma find?_append_of_none (p : α → Bool) (l1 l2 : List α) (h : l1.find? p = none) :
    (l1 ++ l2).find? p = l2.find? p := by
  induction l1 with
  | nil => rfl
  | cons x xs ih =>
      rw [List.find?_eq_none] at h
      have hx : ¬ p x = true := by
        have hh := h x (by simp)
        simpa using hh
      have hxs : xs.find? p = none := by
        rw [List.find?_eq_none]
        intro y hy
        exact h y (by simp [hy])
      rw [List.cons_append, List.find?_cons_of_neg _ hx]
      exact ih hxs

lemma create_login_response_state (svc : JwtService) (st : AuthState) (tnow : Nat)
    (user : User) :
    (create_login_response svc st tnow user).2
      = ⟨⟨st.db.users, st.db.sessions ++
          [⟨st.freshCounter + 1, user.id,
            generate_session_hash ((create_login_response svc st tnow user).1.refresh_token),
            tnow + 3600, some tnow, some false⟩]⟩, st.freshCounter + 2⟩ := rfl

lemma refresh_token_ok_of_valid (svc : JwtService) (st : AuthState) (tnow : Nat)
    (tok : Token) (c : Claims) (session : UserSession) (user : User)
    (h1 : svc.validate_token tnow tok = .ok c)
    (h2 : st.db.find_session_by_token_hash (generate_session_hash tok) = some session)
    (h3 : is_session_valid tnow session = true)
    (h4 : st.db.find_user_by_id session.user_id = some user) :
    AuthService.refresh_token svc st tnow tok
      = .ok (create_login_response svc (revoke_session st session.id) tnow user) := by
  simp only [AuthService.refresh_token, h1, h2, h3, h4, Bool.not_true, Bool.false_eq_true,
    if_false]

lemma refresh_token_fails_of_invalid_session (svc : JwtService) (st : AuthState)
    (tnow : Nat) (tok : Token) (c : Claims) (session : UserSession)
    (h1 : svc.validate_token tnow tok = .ok c)
    (h2 : st.db.find_session_by_token_hash (generate_session_hash tok) = some session)
    (h3 : is_session_valid tnow session = false) :
    AuthService.refresh_token svc st tnow tok
      = .error (.Authentication "Session expired or revoked") := by
  simp only [AuthService.refresh_token, h1, h2, h3, Bool.not_false, if_true]

/-- C4: for every refresh token obtained from an issue (under the freshness
assumption that no pre-existing session row collides with the new token hash,
and at a call time within the stored session window so that the first call
can succeed), calling `refresh_token` twice sequentially with that same token
succeeds exactly once: the first call succeeds after revoking the old session
row and the second call fails with the session-invalid error. -/
theorem refresh_token_single_use
    (svc : JwtService) (st0 : AuthState) (u uf : User) (now t : Nat)
    (hu : st0.db.find_user_by_id u.id = some uf)
    (hfresh : ∀ s ∈ st0.db.sessions,
      s.token_hash
        ≠ generate_session_hash ((create_login_response svc st0 now u).1.refresh_token))
    (hlo : now ≤ t) (hhi : t < now + 3600) :
    ∃ resp2 st2,
      AuthService.refresh_token svc (create_login_response svc st0 now u).2 t
          (create_login_response svc st0 now u).1.refresh_token = .ok (resp2, st2)
        ∧ AuthService.refresh_token svc st2 t
            (create_login_response svc st0 now u).1.refresh_token
          = .error (.Authentication "Session expired or revoked") := by
  set rt := (create_login_response svc st0 now u).1.refresh_token with hrtdef
  have hrt : rt = .signed ⟨u.id, now + 24 * 7 * 3600, now, st0.freshCounter, "user"⟩
      svc.secret := rfl
  have hval : svc.validate_token t rt = .ok ⟨u.id, now + 24 * 7 * 3600, now,
      st0.freshCounter, "user"⟩ := by
    rw [hrt]
    exact validate_token_signed_ok svc t _ (by simp only [jwtLeeway]; omega)
  have hst1 : (create_login_response svc st0 now u).2
      = ⟨⟨st0.db.users, st0.db.sessions ++
          [⟨st0.freshCounter + 1, u.id, generate_session_hash rt,
            now + 3600, some now, some false⟩]⟩, st0.freshCounter + 2⟩ :=
    create_login_response_state svc st0 now u
  have hnone0 : st0.db.sessions.find?
      (fun s => s.token_hash == generate_session_hash rt) = none := by
    rw [List.find?_eq_none]
    intro s hs
    simpa using hfresh s hs
  have hfound1 : ((create_login_response svc st0 now u).2).db.find_session_by_token_hash
      (generate_session_hash rt)
      = some ⟨st0.freshCounter + 1, u.id, generate_session_hash rt,
          now + 3600, some now, some false⟩ := by
    rw [hst1]
    unfold AuthDb.find_session_by_token_hash
    dsimp only
    rw [find?_append_of_none _ _ _ hnone0]
    rw [List.find?_cons_of_pos _ (by simp)]
  have hvalid1 : is_session_valid t
      ⟨st0.freshCounter + 1, u.id, generate_session_hash rt,
        now + 3600, some now, some false⟩ = true := by
    simp [is_session_valid]
    omega
  have huser1 : ((create_login_response svc st0 now u).2).db.find_user_by_id u.id
      = some uf := by
    rw [hst1]
    exact hu
  have hfirst := refresh_token_ok_of_valid svc (create_login_response svc st0 now u).2 t rt
    ⟨u.id, now + 24 * 7 * 3600, now, st0.freshCounter, "user"⟩
    ⟨st0.freshCounter + 1, u.id, generate_session_hash rt, now + 3600, some now, some false⟩
    uf hval hfound1 hvalid1 huser1
  have hrevoked : (revoke_session (create_login_response svc st0 now u).2
        (st0.freshCounter + 1)).db.sessions
      = st0.db.sessions.map (fun s =>
          if s.id == st0.freshCounter + 1 then { s with is_revoked := some true } else s)
        ++ [⟨st0.freshCounter + 1, u.id, generate_session_hash rt,
            now + 3600, some now, some true⟩] := by
    unfold revoke_session
    rw [hst1]
    dsimp only
    rw [List.map_append]
    congr 1
    simp
  have hnone1 : (st0.db.sessions.map (fun s =>
      if s.id == st0.freshCounter + 1 then { s with is_revoked := some true } else s)).find?
      (fun s => s.token_hash == generate_session_hash rt) = none := by
    rw [List.find?_eq_none]
    intro x hx
    obtain ⟨s, hs, rfl⟩ := List.mem_map.mp hx
    have hneq := hfresh s hs
    by_cases hid : (s.id == st0.freshCounter + 1) = true
    · simp only [hid, if_true]
      simpa using hneq
    · simp only [hid, Bool.false_eq_true, if_false]
      simpa using hneq
  have hfound2 : ((create_login_response svc (revoke_session
        (create_login_response svc st0 now u).2 (st0.freshCounter + 1)) t uf).2
      ).db.find_session_by_token_hash (generate_session_hash rt)
      = some ⟨st0.freshCounter + 1, u.id, generate_session_hash rt,
          now + 3600, some now, some true⟩ := by
    rw [create_login_response_state]
    unfold AuthDb.find_session_by_token_hash
    dsimp only
    rw [hrevoked, List.append_assoc]
    rw [find?_append_of_none _ _ _ hnone1]
    rw [List.cons_append, List.find?_cons_of_pos _ (by simp)]
  have hinvalid2 : is_session_valid t
      ⟨st0.freshCounter + 1, u.id, generate_session_hash rt,
        now + 3600, some now, some true⟩ = false := by
    simp [is_session_valid]
  have hsecond := refresh_token_fails_of_invalid_session svc
    (create_login_response svc (revoke_session (create_login_response svc st0 now u).2
      (st0.freshCounter + 1)) t uf).2 t rt
    ⟨u.id, now + 24 * 7 * 3600, now, st0.freshCounter, "user"⟩
    ⟨st0.freshCounter + 1, u.id, generate_session_hash rt, now + 3600, some now, some true⟩
    hval hfound2 hinvalid2
  exact ⟨(create_login_response svc (revoke_session (create_login_response svc st0 now u).2
      (st0.freshCounter + 1)) t uf).1,
    (create_login_response svc (revoke_session (create_login_response svc st0 now u).2
      (st0.freshCounter + 1)) t uf).2,
    hfirst, hsecond⟩

/-- Closed witness for C4 on the concrete demo scenario. -/
theorem refresh_token_single_use_witness :
    ∃ resp2 st2,
      AuthService.refresh_token demoJwt (create_login_response demoJwt demoState 0 demoUser).2 0
          (create_login_response demoJwt demoState 0 demoUser).1.refresh_token
        = .ok (resp2, st2)
        ∧ AuthService.refresh_token demoJwt st2 0
            (create_login_response demoJwt demoState 0 demoUser).1.refresh_token
          = .error (.Authentication "Session expired or revoked") :=
  refresh_token_single_use demoJwt demoState demoUser demoUser 0 0 rfl
    (by intro s hs; simp [demoState] at hs) (by decide) (by decide)
